import Mathlib

/-!
# Verification of the UdpCommandSuite core protocol

Shallow embedding of the UdpCommandSuite repository:

* `UdpCommandListener` (Unity runtime, C#): authentication (`IsAuthorized`,
  `CryptographicEquals`), freshness filtering (`IsStale`, `RegisterCommandId`,
  `PruneProcessedCommands`), binding lookup and dispatch (`BuildBindingLookup`,
  `DispatchCommand`), and the receive pipeline (`ListenLoop`).
* `UdpClientReporter` (Unity runtime, C#): `ComputeSignature`,
  `ApplyHostAnnouncement`, `TryResolveEndpoint`.
* `renderer.js` (Electron host tool): `upsertClient` roster merge and the
  `HEARTBEAT_TIMEOUT_MS` liveness rule.

Machine integers are modelled as `Nat`/`Int` with explicit `% 2^32` where the
crypto code relies on 32-bit wraparound; times are integers (milliseconds or
Unix seconds, matching each call site); the `float` staleness window is
modelled as `ℚ`.  C# strings that the code only ever inspects through
`string.IsNullOrEmpty` are modelled as `String`, with `""` standing for both
null and the empty string.
-/

namespace UdpSuite

/-- Wire envelope, from `UdpCommandMessage` in the Unity runtime
(`part_002`): `cmdId`, `action`, `payload`, `timestamp`, `signature`. -/
structure UdpCommandMessage where
  cmdId : String := ""
  action : String := ""
  payload : String := ""
  timestamp : Int := 0
  signature : String := ""
deriving Repr, DecidableEq

/-! ## UTF-8 encoding (`Encoding.UTF8.GetBytes`) -/

/-- Standard UTF-8 encoding of one Unicode scalar value, as a list of bytes.
Models `Encoding.UTF8.GetBytes` applied per character. -/
def utf8EncodeChar (c : Char) : List Nat :=
  let n := c.toNat
  if n < 128 then [n]
  else if n < 2048 then [192 + n / 64, 128 + n % 64]
  else if n < 65536 then [224 + n / 4096, 128 + n / 64 % 64, 128 + n % 64]
  else [240 + n / 262144, 128 + n / 4096 % 64, 128 + n / 64 % 64, 128 + n % 64]

/-- UTF-8 bytes of a string (`Encoding.UTF8.GetBytes`). -/
def utf8Bytes (s : String) : List Nat :=
  s.data.flatMap utf8EncodeChar

/-! ## SHA-256 (the `HMACSHA256` library primitive used by both halves)

The .NET `HMACSHA256` class is not part of this repository; it is the
standard FIPS 180-4 SHA-256 together with the RFC 2104 HMAC construction,
which we embed directly.  32-bit words are `Nat` values kept below `2^32`
by explicit reduction. -/

/-- Reduce to a 32-bit word. -/
def w32 (n : Nat) : Nat := n % 4294967296

/-- Right-rotation of a 32-bit word by `k` positions (`0 < k < 32`). -/
def rotr (k w : Nat) : Nat := w / 2 ^ k + w % 2 ^ k * 2 ^ (32 - k)

/-- Logical right shift. -/
def shr (k w : Nat) : Nat := w / 2 ^ k

/-- Bitwise complement on 32-bit words (arguments are kept `< 2^32`). -/
def bnot32 (w : Nat) : Nat := 4294967295 - w

/-- SHA-256 big sigma-0. -/
def bsig0 (w : Nat) : Nat := rotr 2 w ^^^ rotr 13 w ^^^ rotr 22 w

/-- SHA-256 big sigma-1. -/
def bsig1 (w : Nat) : Nat := rotr 6 w ^^^ rotr 11 w ^^^ rotr 25 w

/-- SHA-256 small sigma-0. -/
def ssig0 (w : Nat) : Nat := rotr 7 w ^^^ rotr 18 w ^^^ shr 3 w

/-- SHA-256 small sigma-1. -/
def ssig1 (w : Nat) : Nat := rotr 17 w ^^^ rotr 19 w ^^^ shr 10 w

/-- SHA-256 choice function. -/
def chFn (x y z : Nat) : Nat := (x &&& y) ^^^ (bnot32 x &&& z)

/-- SHA-256 majority function. -/
def majFn (x y z : Nat) : Nat := (x &&& y) ^^^ (x &&& z) ^^^ (y &&& z)

/-- The 64 SHA-256 round constants (FIPS 180-4, written in decimal). -/
def roundConstants : List Nat :=
  [1116352408, 1899447441, 3049323471, 3921009573,
   961987163, 1508970993, 2453635748, 2870763221,
   3624381080, 310598401, 607225278, 1426881987,
   1925078388, 2162078206, 2614888103, 3248222580,
   3835390401, 4022224774, 264347078, 604807628,
   770255983, 1249150122, 1555081692, 1996064986,
   2554220882, 2821834349, 2952996808, 3210313671,
   3336571891, 3584528711, 113926993, 338241895,
   666307205, 773529912, 1294757372, 1396182291,
   1695183700, 1986661051, 2177026350, 2456956037,
   2730485921, 2820302411, 3259730800, 3345764771,
   3516065817, 3600352804, 4094571909, 275423344,
   430227734, 506948616, 659060556, 883997877,
   958139571, 1322822218, 1537002063, 1747873779,
   1955562222, 2024104815, 2227730452, 2361852424,
   2428436474, 2756734187, 3204031479, 3329325298]

/-- Working state of the SHA-256 compression function: eight 32-bit words. -/
structure Sha256State where
  a : Nat
  b : Nat
  c : Nat
  d : Nat
  e : Nat
  f : Nat
  g : Nat
  h : Nat
deriving Repr, DecidableEq

/-- SHA-256 initial hash value (FIPS 180-4, written in decimal). -/
def sha256Init : Sha256State :=
  ⟨1779033703, 3144134277, 1013904242, 2773480762,
   1359893119, 2600822924, 528734635, 1541459225⟩

/-- Big-endian 32-bit words of a 64-byte block. -/
def words16 : List Nat → List Nat
  | b0 :: b1 :: b2 :: b3 :: rest => (b0 * 16777216 + b1 * 65536 + b2 * 256 + b3) :: words16 rest
  | _ => []

/-- Extend the 16-word schedule by `k` further words. -/
def extendSchedule : Nat → List Nat → List Nat
  | 0, w => w
  | k + 1, w =>
      extendSchedule k (w ++ [w32 (ssig1 (w.getD (w.length - 2) 0) + w.getD (w.length - 7) 0 +
        ssig0 (w.getD (w.length - 15) 0) + w.getD (w.length - 16) 0)])

/-- One SHA-256 round with round constant / schedule word `kw`. -/
def sha256Round (s : Sha256State) (kw : Nat × Nat) : Sha256State :=
  let t1 := w32 (s.h + bsig1 s.e + chFn s.e s.f s.g + kw.1 + kw.2)
  let t2 := w32 (bsig0 s.a + majFn s.a s.b s.c)
  ⟨w32 (t1 + t2), s.a, s.b, s.c, w32 (s.d + t1), s.e, s.f, s.g⟩

/-- SHA-256 compression of one 64-byte block. -/
def sha256Compress (s : Sha256State) (block : List Nat) : Sha256State :=
  let ws := extendSchedule 48 (words16 block)
  let t := (roundConstants.zip ws).foldl sha256Round s
  ⟨w32 (s.a + t.a), w32 (s.b + t.b), w32 (s.c + t.c), w32 (s.d + t.d),
   w32 (s.e + t.e), w32 (s.f + t.f), w32 (s.g + t.g), w32 (s.h + t.h)⟩

/-- Big-endian bytes of a 64-bit length field. -/
def be64 (n : Nat) : List Nat :=
  [n / 2 ^ 56 % 256, n / 2 ^ 48 % 256, n / 2 ^ 40 % 256, n / 2 ^ 32 % 256,
   n / 2 ^ 24 % 256, n / 2 ^ 16 % 256, n / 2 ^ 8 % 256, n % 256]

/-- Big-endian bytes of a 32-bit word. -/
def be32 (n : Nat) : List Nat :=
  [n / 16777216 % 256, n / 65536 % 256, n / 256 % 256, n % 256]

/-- SHA-256 padding: `0x80`, zeros to 56 mod 64, then the bit length. -/
def padMessage (msg : List Nat) : List Nat :=
  msg ++ 128 :: List.replicate ((64 - (msg.length + 9) % 64) % 64) 0 ++ be64 (msg.length * 8)

/-- Split a (padded) message into 64-byte blocks. -/
def chunks64 : List Nat → List (List Nat)
  | [] => []
  | x :: xs => (x :: xs).take 64 :: chunks64 ((x :: xs).drop 64)
termination_by l => l.length
decreasing_by simp [List.length_drop]; omega

/-- SHA-256 digest (32 bytes) of a byte sequence. -/
def sha256 (msg : List Nat) : List Nat :=
  let fin := (chunks64 (padMessage msg)).foldl sha256Compress sha256Init
  be32 fin.a ++ be32 fin.b ++ be32 fin.c ++ be32 fin.d ++
    be32 fin.e ++ be32 fin.f ++ be32 fin.g ++ be32 fin.h

/-- RFC 2104 HMAC-SHA256 (the `HMACSHA256` class used at both call sites). -/
def hmacSha256 (key msg : List Nat) : List Nat :=
  let k0 := if 64 < key.length then sha256 key else key
  let kp := k0 ++ List.replicate (64 - k0.length) 0
  let inner := sha256 (kp.map (fun b => b ^^^ 54) ++ msg)
  sha256 (kp.map (fun b => b ^^^ 92) ++ inner)

/-! ## Base64 (`Convert.ToBase64String`) -/

/-- The standard base64 alphabet. -/
def base64Alphabet : List Char :=
  "ABCDEFGHIJKLMNOPQRSTUVWXYZabcdefghijklmnopqrstuvwxyz0123456789+/".data

/-- Base64 digit for a 6-bit value. -/
def base64Digit (n : Nat) : Char := base64Alphabet.getD n 'A'

/-- Base64 characters of a byte sequence, with `=` padding. -/
def base64Chars : List Nat → List Char
  | [] => []
  | [b1] => [base64Digit (b1 / 4), base64Digit (b1 % 4 * 16), '=', '=']
  | [b1, b2] => [base64Digit (b1 / 4), base64Digit (b1 % 4 * 16 + b2 / 16),
                 base64Digit (b2 % 16 * 4), '=']
  | b1 :: b2 :: b3 :: rest =>
      base64Digit (b1 / 4) :: base64Digit (b1 % 4 * 16 + b2 / 16) ::
        base64Digit (b2 % 16 * 4 + b3 / 64) :: base64Digit (b3 % 64) :: base64Chars rest

/-- Models `Convert.ToBase64String`. -/
def base64Encode (l : List Nat) : String := String.mk (base64Chars l)

/-! ## Authenticator

`UdpCommandListener.IsAuthorized` / `CryptographicEquals` (`part_002`,
lines 429-445 and 602-616) and `UdpClientReporter.ComputeSignature`
(`UdpClientReporter.cs`, lines 566-571). -/

/-- The canonical signing string `action + "|" + (payload ?? "") + "|" +
timestamp`, shared verbatim by `IsAuthorized` and `ComputeSignature`. -/
def canonicalString (m : UdpCommandMessage) : String :=
  m.action ++ "|" ++ m.payload ++ "|" ++ toString m.timestamp

/-- Models `UdpClientReporter.ComputeSignature`: base64 of the HMAC-SHA256 of the
canonical string under the shared secret. -/
def computeSignature (sharedSecret : String) (m : UdpCommandMessage) : String :=
  base64Encode (hmacSha256 (utf8Bytes sharedSecret) (utf8Bytes (canonicalString m)))

/-- Models `UdpCommandListener.CryptographicEquals`: length check, then an
OR-accumulated XOR over the characters, compared against zero. -/
def cryptographicEquals (a b : String) : Bool :=
  if a.data.length ≠ b.data.length then false
  else ((a.data.zip b.data).foldl (fun r cc => r ||| (cc.1.toNat ^^^ cc.2.toNat)) 0) == 0

/-- Models `UdpCommandListener.IsAuthorized`: empty secret accepts everything; with a
secret, an empty signature is rejected, otherwise the recomputed signature is
compared in constant time. -/
def isAuthorized (sharedSecret : String) (m : UdpCommandMessage) : Bool :=
  if sharedSecret = "" then true
  else if m.signature = "" then false
  else
    let expected :=
      base64Encode (hmacSha256 (utf8Bytes sharedSecret) (utf8Bytes (canonicalString m)))
    cryptographicEquals expected m.signature

/-! ## Freshness Filter

`UdpCommandListener.IsStale` (`part_002`, lines 447-460),
`RegisterCommandId` (lines 462-484) and `PruneProcessedCommands`
(lines 486-502).  The dedup cache `_processedCommands` is modelled as an
association list `List (String × Int)` with unique keys, mapping a command
id to its insertion time in Unix seconds. -/

/-- The dual-unit heuristic: a timestamp strictly above `9_999_999_999` is
already Unix milliseconds, otherwise it is Unix seconds
(`DateTimeOffset.FromUnixTimeMilliseconds` / `FromUnixTimeSeconds`). -/
def interpretTimestampMs (ts : Int) : Int :=
  if 9999999999 < ts then ts else ts * 1000

/-- Models `UdpCommandListener.IsStale`: disabled window or unset timestamp never
stale; otherwise the age in seconds must strictly exceed the window. -/
def isStale (staleCommandWindowSeconds : ℚ) (nowMs : Int) (m : UdpCommandMessage) : Bool :=
  if staleCommandWindowSeconds ≤ 0 ∨ m.timestamp ≤ 0 then false
  else
    decide (staleCommandWindowSeconds <
      ((nowMs : ℚ) - (interpretTimestampMs m.timestamp : ℚ)) / 1000)

/-- Models `Dictionary.ContainsKey` on the dedup cache. -/
def containsKey (cache : List (String × Int)) (k : String) : Bool :=
  cache.any (fun e => e.1 == k)

/-- Models `MaxRememberedCommandIds` (`part_002`, line 94). -/
def maxRememberedCommandIds : Nat := 128

/-- Models `UdpCommandListener.PruneProcessedCommands`: drop every entry recorded
strictly before `now - (long)Math.Max(1, staleCommandWindowSeconds)`. -/
def pruneProcessedCommands (nowSeconds : Int) (staleCommandWindowSeconds : ℚ)
    (cache : List (String × Int)) : List (String × Int) :=
  let cutoff := nowSeconds - Int.floor (max 1 staleCommandWindowSeconds)
  cache.filter (fun e => !(decide (e.2 < cutoff)))

/-- Models `UdpCommandListener.RegisterCommandId`: empty `cmdId` always passes and
records nothing; a cached id is rejected; otherwise the id is recorded at
`now` (Unix seconds) and the cache is pruned when its size exceeds the
bound. -/
def registerCommandId (nowSeconds : Int) (staleCommandWindowSeconds : ℚ)
    (m : UdpCommandMessage) (cache : List (String × Int)) :
    Bool × List (String × Int) :=
  if m.cmdId = "" then (true, cache)
  else if containsKey cache m.cmdId then (false, cache)
  else
    let inserted := cache ++ [(m.cmdId, nowSeconds)]
    if maxRememberedCommandIds < inserted.length then
      (true, pruneProcessedCommands nowSeconds staleCommandWindowSeconds inserted)
    else (true, inserted)

/-! ## Command Dispatcher

`UdpCommandListener._bindingLookup` is a
`Dictionary<string, UdpCommandBinding>(StringComparer.OrdinalIgnoreCase)`
(`part_002`, line 90), filled by `BuildBindingLookup` (lines 195-218) and
consulted by `DispatchCommand` (lines 504-522).  The dictionary is modelled
as an insertion-ordered list with `OrdinalIgnoreCase` key equality; the
comparer is modelled on ASCII letters, which covers the action identifiers
the suite uses. -/

/-- ASCII upper-casing, the per-character normalisation underlying
`StringComparer.OrdinalIgnoreCase` on ASCII strings. -/
def toUpperAscii (c : Char) : Char :=
  if 'a' ≤ c ∧ c ≤ 'z' then Char.ofNat (c.toNat - 32) else c

/-- Models `StringComparer.OrdinalIgnoreCase` equality (ASCII model). -/
def ordinalIgnoreCaseEq (a b : String) : Bool :=
  a.data.map toUpperAscii == b.data.map toUpperAscii

/-- Models `string.IsNullOrWhiteSpace` (with `""` standing for null). -/
def isNullOrWhiteSpace (s : String) : Bool := s.data.all Char.isWhitespace

/-- A serialized binding: its inspector `action` string, plus an opaque
numeric identifier standing for the binding's attached handlers
(`UdpCommandBinding` holds a `UnityEvent` plus runtime delegates, which the
dispatch model only needs to tell apart and count). -/
structure UdpCommandBinding where
  action : String := ""
  id : Nat := 0
deriving Repr, DecidableEq

/-- Models `UdpCommandListener.BuildBindingLookup`: skip blank actions, skip
entries whose action already exists under the case-insensitive comparer,
insert the rest. -/
def buildBindingLookup (bindings : List UdpCommandBinding) : List UdpCommandBinding :=
  bindings.foldl (fun lookup b =>
    if isNullOrWhiteSpace b.action then lookup
    else if lookup.any (fun e => ordinalIgnoreCaseEq e.action b.action) then lookup
    else lookup ++ [b]) []

/-- Models `_bindingLookup.TryGetValue(action, out binding)`. -/
def lookupBinding (lookup : List UdpCommandBinding) (action : String) :
    Option UdpCommandBinding :=
  lookup.find? (fun b => ordinalIgnoreCaseEq b.action action)

/-- The specific-handler invocations `DispatchCommand` performs for one
admitted envelope: the matched binding is invoked once, otherwise none. -/
def dispatchInvocations (lookup : List UdpCommandBinding) (m : UdpCommandMessage) :
    List Nat :=
  match lookupBinding lookup m.action with
  | some b => [b.id]
  | none => []

/-! ## Receive pipeline

One iteration of `UdpCommandListener.ListenLoop` (`part_002`, lines
349-402) for a single datagram.  JSON deserialization
(`JsonUtility.FromJson`) is external; its result is the `Option
UdpCommandMessage` input (`none` for unparseable data), and
`ParseMessage`'s empty-action rejection is embedded from the source. -/

/-- Models `UdpCommandListener.ParseMessage` on an already-deserialized value:
reject `null` results and envelopes with a null/empty `action`. -/
def parseMessage (raw : Option UdpCommandMessage) : Option UdpCommandMessage :=
  match raw with
  | none => none
  | some m => if m.action = "" then none else some m

/-- One `ListenLoop` iteration: parse, authenticate, staleness-check,
dedup-register, and enqueue.  Returns the updated dedup cache and the
enqueued command (if any). -/
def processDatagram (sharedSecret : String) (staleCommandWindowSeconds : ℚ)
    (nowMs : Int) (raw : Option UdpCommandMessage) (cache : List (String × Int)) :
    List (String × Int) × Option UdpCommandMessage :=
  match parseMessage raw with
  | none => (cache, none)
  | some command =>
    if !(isAuthorized sharedSecret command) then (cache, none)
    else if isStale staleCommandWindowSeconds nowMs command then (cache, none)
    else
      let r := registerCommandId (nowMs / 1000) staleCommandWindowSeconds command cache
      if r.1 then (r.2, some command) else (r.2, none)

/-! ## Discovery Coordinator

`UdpClientReporter.ApplyHostAnnouncement` (`UdpClientReporter.cs`, lines
322-350) and `TryResolveEndpoint` (lines 464-504). -/

/-- Models `HostAnnouncementPayload` (`UdpClientReporter.cs`, lines 659-666). -/
structure HostAnnouncementPayload where
  hostName : String := ""
  hostAddress : String := ""
  hostPort : Int := 0
  commandPort : Int := 0
deriving Repr, DecidableEq

/-- The reporter fields touched by the discovery handshake:
`hostAddress`/`hostPort`/`discoveryPort` configuration, the cached resolved
endpoint (`cachedEndpoint` as an (ip, port) pair plus `cachedHostAddress`),
and the `hasSentRegistration`/`hasLoggedMissingHost` flags. -/
structure ReporterState where
  hostAddress : String := "auto"
  hostPort : Int := 4949
  discoveryPort : Int := 4949
  cachedEndpoint : Option (String × Int) := none
  cachedHostAddress : String := ""
  hasSentRegistration : Bool := false
  hasLoggedMissingHost : Bool := false
deriving Repr, DecidableEq

/-- Models `UdpClientReporter.IsHostResolved`. -/
def isHostResolved (s : ReporterState) : Bool :=
  !(isNullOrWhiteSpace s.hostAddress) && !(ordinalIgnoreCaseEq s.hostAddress "auto")

/-- Models `UdpClientReporter.ApplyHostAnnouncement`: resolve the address from the
payload with fallback to the observed sender, resolve the port from the
payload when positive with fallback to the configured port, update the
configuration, and invalidate the cached endpoint and registration flag
when the comparer reports a change. -/
def applyHostAnnouncement (payload : Option HostAnnouncementPayload)
    (remote : Option String) (s : ReporterState) : Bool × ReporterState :=
  let payloadAddress := (payload.map (·.hostAddress)).getD ""
  let resolvedAddress :=
    if !(isNullOrWhiteSpace payloadAddress) then payloadAddress else remote.getD ""
  if isNullOrWhiteSpace resolvedAddress then (false, s)
  else
    let resolvedPort :=
      match payload with
      | some p => if 0 < p.hostPort then p.hostPort else s.hostPort
      | none => s.hostPort
    let addressChanged := !(ordinalIgnoreCaseEq s.hostAddress resolvedAddress)
    let portChanged := resolvedPort != s.hostPort
    let s1 := { s with hostAddress := resolvedAddress, hostPort := resolvedPort,
                       discoveryPort := resolvedPort }
    let s2 :=
      if addressChanged || portChanged then
        { s1 with cachedEndpoint := none, cachedHostAddress := "",
                  hasSentRegistration := false }
      else s1
    (true, { s2 with hasLoggedMissingHost := false })

/-- Models `UdpClientReporter.TryResolveEndpoint`.  DNS
(`Dns.GetHostAddresses` filtered to the first IPv4 address) is external and
passed as `dns`. -/
def tryResolveEndpoint (dns : String → Option String) (s : ReporterState) :
    Option (String × Int) × ReporterState :=
  if !(isHostResolved s) then (none, s)
  else if (match s.cachedEndpoint with
           | some ep => ordinalIgnoreCaseEq s.hostAddress s.cachedHostAddress &&
               ep.2 == s.hostPort
           | none => false) then
    (s.cachedEndpoint, s)
  else
    match dns s.hostAddress with
    | some ip =>
        (some (ip, s.hostPort),
         { s with cachedEndpoint := some (ip, s.hostPort),
                  cachedHostAddress := s.hostAddress })
    | none => (none, s)

/-! ## Roster Tracker

`upsertClient` (`renderer.js`, lines 503-543) and the liveness rule
(`renderer.js`, lines 36-39 and 229-231).  JS values that can be
`undefined` are modelled as `Option`; JS falsy-or (`||`) on strings treats
`""` (and `undefined`) as absent, on numbers it treats `0` (and `NaN`,
modelled as `none`) as absent. -/

/-- A roster entry as stored in the `clients` map. -/
@[ext]
structure ClientEntry where
  deviceId : String := ""
  deviceName : String := ""
  platform : String := ""
  buildVersion : String := ""
  ipv4 : String := ""
  scene : String := ""
  commandPort : Option Int := none
  remoteAddress : String := ""
  remotePort : Int := 0
  firstSeen : Int := 0
  lastSeen : Int := 0
deriving Repr, DecidableEq

/-- The payload object built by the `registerclient`/`heartbeat` handler
(`renderer.js`, lines 490-499); every field may be `undefined`. -/
structure HeartbeatPayload where
  deviceId : Option String := none
  deviceName : Option String := none
  platform : Option String := none
  buildVersion : Option String := none
  ipv4 : Option String := none
  scene : Option String := none
  commandPort : Option Int := none
deriving Repr, DecidableEq

/-- JS `a || b` for an optional string `a`: `undefined` and `""` fall
through to `b`. -/
def jsOrStr (a : Option String) (b : String) : String :=
  match a with
  | some s => if s = "" then b else s
  | none => b

/-- Models `clients.get(key)` on the assoc-list model of the `Map`. -/
def lookupClient (clients : List (String × ClientEntry)) (k : String) :
    Option ClientEntry :=
  (clients.find? (fun e => e.1 == k)).map (·.2)

/-- Models `clients.set(key, v)`. -/
def setClient (clients : List (String × ClientEntry)) (k : String) (v : ClientEntry) :
    List (String × ClientEntry) :=
  if clients.any (fun e => e.1 == k) then
    clients.map (fun e => if e.1 == k then (k, v) else e)
  else clients ++ [(k, v)]

/-- The default entry object created for an unseen key (`renderer.js`,
lines 506-518). -/
def newClientEntry (now : Int) (packet : String × Int) (payload : HeartbeatPayload)
    (key : String) : ClientEntry :=
  { deviceId := jsOrStr payload.deviceId key
    deviceName := jsOrStr payload.deviceName ""
    platform := jsOrStr payload.platform ""
    buildVersion := jsOrStr payload.buildVersion ""
    ipv4 := jsOrStr payload.ipv4 packet.1
    scene := jsOrStr payload.scene ""
    commandPort := payload.commandPort
    remoteAddress := packet.1
    remotePort := packet.2
    firstSeen := now
    lastSeen := now }

/-- Models `updated.commandPort || Number.parseInt(portInput.value, 10) || 3939`,
from the second `||` on: the dashboard's port input (`none` for `NaN`). -/
def commandPortFallback (portInputValue : Option Int) : Int :=
  match portInputValue with
  | some p => if p ≠ 0 then p else 3939
  | none => 3939

/-- The per-application entry transform of `upsertClient`: refresh
transport fields and `lastSeen`, merge the defined payload fields, then
apply the `ipv4`/`scene`/`commandPort`/`deviceName` fallbacks
(`renderer.js`, lines 520-539). -/
def mergeEntry (portInputValue : Option Int) (now : Int) (packet : String × Int)
    (payload : HeartbeatPayload) (current : ClientEntry) : ClientEntry :=
  let updated := { current with remoteAddress := packet.1, remotePort := packet.2,
                                lastSeen := now }
  let merged := { updated with
    deviceId := payload.deviceId.getD updated.deviceId
    deviceName := payload.deviceName.getD updated.deviceName
    platform := payload.platform.getD updated.platform
    buildVersion := payload.buildVersion.getD updated.buildVersion
    ipv4 := payload.ipv4.getD updated.ipv4
    scene := payload.scene.getD updated.scene
    commandPort :=
      match payload.commandPort with
      | some v => some v
      | none => updated.commandPort }
  let withIpv4 := { merged with ipv4 := if merged.ipv4 = "" then packet.1 else merged.ipv4 }
  let withScene :=
    { withIpv4 with scene := if withIpv4.scene = "" then current.scene else withIpv4.scene }
  let withPort := { withScene with commandPort :=
    match withScene.commandPort with
    | some v => if v ≠ 0 then some v else some (commandPortFallback portInputValue)
    | none => some (commandPortFallback portInputValue) }
  if withPort.deviceName = "" then { withPort with deviceName := withPort.deviceId }
  else withPort

/-- Models `upsertClient(packet, payload)`: resolve the roster key (deviceId,
else sender address, else a generated placeholder), fetch or create the
entry, apply the merge, store it. -/
def upsertClient (portInputValue : Option Int) (now : Int) (packet : String × Int)
    (payload : HeartbeatPayload) (clients : List (String × ClientEntry)) :
    List (String × ClientEntry) :=
  let k0 := jsOrStr payload.deviceId packet.1
  let key := if k0 = "" then "client-" ++ toString (clients.length + 1) else k0
  let current := (lookupClient clients key).getD (newClientEntry now packet payload key)
  setClient clients key (mergeEntry portInputValue now packet payload current)

/-- Models `HEARTBEAT_TIMEOUT_MS` (`renderer.js`, line 38). -/
def heartbeatTimeoutMs : Int := 10000

/-- Models `now - device.lastSeen > HEARTBEAT_TIMEOUT_MS` (`renderer.js`, line
230): the offline test recomputed at every render. -/
def isOffline (now lastSeen : Int) : Bool := heartbeatTimeoutMs < now - lastSeen

/-! ## Lemmas about the authenticator -/

theorem lor_eq_zero_iff (m n : Nat) : m ||| n = 0 ↔ m = 0 ∧ n = 0 := by
  constructor
  · intro h
    refine ⟨Nat.eq_of_testBit_eq fun i => ?_, Nat.eq_of_testBit_eq fun i => ?_⟩ <;>
      · have hb := congrArg (fun x => Nat.testBit x i) h
        simp [Nat.testBit_or] at hb
        simp [hb]
  · rintro ⟨rfl, rfl⟩
    rfl

theorem foldl_lor_eq_zero (l : List Nat) (acc : Nat) :
    (l.foldl (fun r x => r ||| x) acc = 0) ↔ (acc = 0 ∧ ∀ x ∈ l, x = 0) := by
  induction l generalizing acc with
  | nil => simp
  | cons y ys ih =>
    simp only [List.foldl_cons, ih, lor_eq_zero_iff, List.mem_cons]
    constructor
    · rintro ⟨⟨h1, h2⟩, h3⟩
      exact ⟨h1, fun x hx => hx.elim (fun he => he ▸ h2) (h3 x)⟩
    · rintro ⟨h1, h2⟩
      exact ⟨⟨h1, h2 y (Or.inl rfl)⟩, fun x hx => h2 x (Or.inr hx)⟩

theorem char_toNat_inj {a b : Char} (h : a.toNat = b.toNat) : a = b :=
  Char.ext (UInt32.ext (Nat.cast_injective h))

theorem zip_xor_zero_iff :
    ∀ (xs ys : List Char), xs.length = ys.length →
      ((∀ p ∈ xs.zip ys, p.1.toNat ^^^ p.2.toNat = 0) ↔ xs = ys) := by
  intro xs
  induction xs with
  | nil =>
    intro ys h
    cases ys with
    | nil => simp
    | cons y t => simp at h
  | cons x xt ih =>
    intro ys h
    cases ys with
    | nil => simp at h
    | cons y yt =>
      simp only [List.zip_cons_cons, List.mem_cons, List.cons.injEq]
      have hlen : xt.length = yt.length := by
        simpa using h
      constructor
      · intro hp
        have hx : x = y := by
          have h0 := hp (x, y) (Or.inl rfl)
          exact char_toNat_inj (Nat.xor_eq_zero.mp h0)
        refine ⟨hx, (ih yt hlen).mp fun p hp2 => hp p (Or.inr hp2)⟩
      · rintro ⟨rfl, rfl⟩
        intro p hp2
        rcases hp2 with he | hm
        · rw [he]
          exact Nat.xor_eq_zero.mpr rfl
        · exact ((ih _ rfl).mpr rfl) p hm

theorem cryptographicEquals_iff (a b : String) :
    cryptographicEquals a b = true ↔ a = b := by
  unfold cryptographicEquals
  by_cases hl : a.data.length = b.data.length
  · rw [if_neg (by simpa using hl)]
    have hfold :
        ((a.data.zip b.data).foldl (fun r cc => r ||| (cc.1.toNat ^^^ cc.2.toNat)) 0)
          = ((a.data.zip b.data).map (fun cc => cc.1.toNat ^^^ cc.2.toNat)).foldl
              (fun r x => r ||| x) 0 := by
      rw [List.foldl_map]
    rw [beq_iff_eq, hfold, foldl_lor_eq_zero]
    constructor
    · rintro ⟨-, hz⟩
      have hp : ∀ p ∈ a.data.zip b.data, p.1.toNat ^^^ p.2.toNat = 0 := by
        intro p hp
        exact hz _ (List.mem_map_of_mem _ hp)
      have hdata : a.data = b.data := (zip_xor_zero_iff a.data b.data hl).mp hp
      cases a
      cases b
      exact congrArg String.mk hdata
    · rintro rfl
      refine ⟨rfl, ?_⟩
      intro x hx
      rcases List.mem_map.mp hx with ⟨p, hp, rfl⟩
      exact ((zip_xor_zero_iff a.data a.data rfl).mpr rfl) p hp
  · rw [if_pos (by simpa using hl)]
    exact iff_of_false (by simp) fun he => hl (by rw [he])

theorem sha256_ne_nil (msg : List Nat) : sha256 msg ≠ [] := by
  simp [sha256, be32]

theorem hmacSha256_ne_nil (key msg : List Nat) : hmacSha256 key msg ≠ [] := by
  unfold hmacSha256
  exact sha256_ne_nil _

theorem base64Chars_ne_nil {l : List Nat} (h : l ≠ []) : base64Chars l ≠ [] := by
  cases l with
  | nil => exact absurd rfl h
  | cons b1 t =>
    cases t with
    | nil => simp [base64Chars]
    | cons b2 t2 =>
      cases t2 with
      | nil => simp [base64Chars]
      | cons b3 r => simp [base64Chars]

theorem base64Encode_ne_empty {l : List Nat} (h : l ≠ []) : base64Encode l ≠ "" := by
  unfold base64Encode
  intro he
  exact base64Chars_ne_nil h (congrArg String.data he)

theorem computeSignature_ne_empty (S : String) (m : UdpCommandMessage) :
    computeSignature S m ≠ "" :=
  base64Encode_ne_empty (hmacSha256_ne_nil _ _)

/-! ## C1 and C2: the authenticator contract -/

/-- C1: for every envelope `E` and non-empty secret `S`, setting `E`'s
signature to `computeSignature S E` (the base64 HMAC-SHA256 of the
canonical string `action|payload|timestamp`) makes `isAuthorized` succeed,
and `isAuthorized` fails for every other signature value. -/
theorem sign_verify_roundtrip (S : String) (E : UdpCommandMessage) (hS : S ≠ "") :
    isAuthorized S { E with signature := computeSignature S E } = true ∧
    (∀ sig, sig ≠ computeSignature S E →
      isAuthorized S { E with signature := sig } = false) := by
  constructor
  · unfold isAuthorized
    rw [if_neg hS]
    rw [show ({ E with signature := computeSignature S E } : UdpCommandMessage).signature
          = computeSignature S E from rfl,
        if_neg (computeSignature_ne_empty S E)]
    exact (cryptographicEquals_iff _ _).mpr rfl
  · intro sig hsig
    unfold isAuthorized
    rw [if_neg hS]
    by_cases h0 : sig = ""
    · rw [show ({ E with signature := sig } : UdpCommandMessage).signature = sig from rfl,
          if_pos h0]
    · rw [show ({ E with signature := sig } : UdpCommandMessage).signature = sig from rfl,
          if_neg h0]
      have hne : ¬ (cryptographicEquals (computeSignature S E) sig = true) := fun hc =>
        hsig ((cryptographicEquals_iff _ _).mp hc).symm
      exact Bool.eq_false_iff.mpr hne

/-- Witness for C1 at a concrete secret and envelope. -/
theorem sign_verify_roundtrip_witness :
    ("s3cret" ≠ "") ∧
      (isAuthorized "s3cret"
          { action := "Beep", payload := "", timestamp := 1700000000000,
            signature := computeSignature "s3cret"
              { action := "Beep", payload := "", timestamp := 1700000000000 } } = true ∧
        (∀ sig, sig ≠ computeSignature "s3cret"
              { action := "Beep", payload := "", timestamp := 1700000000000 } →
          isAuthorized "s3cret"
            { action := "Beep", payload := "", timestamp := 1700000000000,
              signature := sig } = false)) :=
  ⟨by decide,
   sign_verify_roundtrip "s3cret"
     { action := "Beep", payload := "", timestamp := 1700000000000 } (by decide)⟩

/-- C2: an empty configured secret makes `isAuthorized` accept every
envelope regardless of its signature; a non-empty secret together with an
absent/empty signature makes it reject. -/
theorem verify_opt_in (S : String) (E : UdpCommandMessage) :
    (S = "" → isAuthorized S E = true) ∧
    (S ≠ "" → E.signature = "" → isAuthorized S E = false) := by
  constructor
  · intro hS
    unfold isAuthorized
    rw [if_pos hS]
  · intro hS hsig
    unfold isAuthorized
    rw [if_neg hS, if_pos hsig]

/-- Witness for C2 at a concrete envelope under both secret configurations. -/
theorem verify_opt_in_witness :
    (("" : String) = "" → isAuthorized "" { action := "Go", signature := "junk" } = true) ∧
    (("k" : String) ≠ "" →
      ({ action := "Go" } : UdpCommandMessage).signature = "" →
      isAuthorized "k" { action := "Go" } = false) :=
  ⟨fun h => (verify_opt_in "" { action := "Go", signature := "junk" }).1 h,
   fun h hs => (verify_opt_in "k" { action := "Go" }).2 h hs⟩

/-! ## C3: dispatch lookup -/

/-- C3 counterexample: the binding lookup is built over
`StringComparer.OrdinalIgnoreCase`, so an envelope whose action `"ping"`
differs from the registered action `"Ping"` only in case still invokes
that binding — the claimed case-sensitive lookup is refuted. -/
theorem dispatch_case_insensitive_cex :
    "ping" ≠ "Ping" ∧
    dispatchInvocations (buildBindingLookup [{ action := "Ping", id := 1 }])
      { action := "ping" } = [1] := by
  constructor
  · decide
  · rfl

/-- C3 (amended): the Dispatcher looks up the handler by ordinal
case-insensitive action match: any matched binding agrees with the
envelope's action up to case, a match is invoked exactly once (and no
invocation happens without a match), and a second registration differing
from an earlier action only in case is discarded as a duplicate. -/
theorem dispatch_lookup_spec (bindings : List UdpCommandBinding)
    (m : UdpCommandMessage) :
    (dispatchInvocations (buildBindingLookup bindings) m).length ≤ 1 ∧
    (∀ b, lookupBinding (buildBindingLookup bindings) m.action = some b →
      dispatchInvocations (buildBindingLookup bindings) m = [b.id] ∧
      ordinalIgnoreCaseEq b.action m.action = true) ∧
    (lookupBinding (buildBindingLookup bindings) m.action = none →
      dispatchInvocations (buildBindingLookup bindings) m = []) ∧
    (∀ a1 a2 i1 i2, ordinalIgnoreCaseEq a1 a2 = true →
      isNullOrWhiteSpace a1 = false →
      buildBindingLookup [{ action := a1, id := i1 }, { action := a2, id := i2 }]
        = [{ action := a1, id := i1 }]) := by
  refine ⟨?_, ?_, ?_, ?_⟩
  · unfold dispatchInvocations
    cases h : lookupBinding (buildBindingLookup bindings) m.action <;> simp
  · intro b hb
    refine ⟨?_, ?_⟩
    · unfold dispatchInvocations
      rw [hb]
    · unfold lookupBinding at hb
      have hp := List.find?_some hb
      simpa using hp
  · intro h
    unfold dispatchInvocations
    rw [h]
  · intro a1 a2 i1 i2 hci hws
    by_cases h2 : isNullOrWhiteSpace a2 = true
    · simp [buildBindingLookup, hws, h2]
    · simp [buildBindingLookup, hws, h2, hci]

/-- Witness for C3's amended theorem: the `"Ping"` binding is the unique
invocation for the envelope action `"ping"`. -/
theorem dispatch_lookup_spec_witness :
    dispatchInvocations (buildBindingLookup [{ action := "Ping", id := 1 }])
        { action := "ping" } = [({ action := "Ping", id := 1 } : UdpCommandBinding).id] ∧
      ordinalIgnoreCaseEq ({ action := "Ping", id := 1 } : UdpCommandBinding).action
        ({ action := "ping" } : UdpCommandMessage).action = true :=
  (dispatch_lookup_spec [{ action := "Ping", id := 1 }] { action := "ping" }).2.1
    { action := "Ping", id := 1 } (by rfl)

/-! ## C4: staleness boundary -/

/-- C4: with a positive window and a set timestamp, `IsStale` rejects
exactly when the age (wall clock minus the timestamp, read as milliseconds
from 10,000,000,000 upward and as seconds below) strictly exceeds the
window, so age equal to the window is admitted; a non-positive window (or
unset timestamp) never rejects. -/
theorem isStale_spec (W : ℚ) (nowMs : Int) (m : UdpCommandMessage) :
    (0 < W → 0 < m.timestamp →
      (isStale W nowMs m = true ↔
        W < ((nowMs : ℚ) -
            (if 10000000000 ≤ m.timestamp then (m.timestamp : ℚ)
             else (m.timestamp : ℚ) * 1000)) / 1000)) ∧
    (W ≤ 0 → isStale W nowMs m = false) ∧
    (m.timestamp ≤ 0 → isStale W nowMs m = false) := by
  refine ⟨?_, ?_, ?_⟩
  · intro hW ht
    unfold isStale
    rw [if_neg (not_or.mpr ⟨not_le.mpr hW, not_le.mpr ht⟩), decide_eq_true_iff]
    unfold interpretTimestampMs
    by_cases hts : 9999999999 < m.timestamp
    · rw [if_pos hts, if_pos (by omega)]
    · rw [if_neg hts, if_neg (by omega)]
      push_cast
      exact Iff.rfl
  · intro hW
    unfold isStale
    rw [if_pos (Or.inl hW)]
  · intro ht
    unfold isStale
    rw [if_pos (Or.inr ht)]

/-- Witness for C4 at a concrete positive window and millisecond
timestamp. -/
theorem isStale_spec_witness :
    (0 < (5 : ℚ)) ∧ (0 < (1700000000000 : Int)) ∧
      (isStale 5 1700000010000 { action := "a", timestamp := 1700000000000 } = true ↔
        (5 : ℚ) < ((1700000010000 : ℚ) -
            (if (10000000000 : Int) ≤ (1700000000000 : Int) then ((1700000000000 : Int) : ℚ)
             else ((1700000000000 : Int) : ℚ) * 1000)) / 1000) :=
  ⟨by norm_num, by norm_num,
   (isStale_spec 5 1700000010000 { action := "a", timestamp := 1700000000000 }).1
     (by norm_num) (by norm_num)⟩

/-! ## C5: duplicate suppression -/

/-- C5: an envelope without a `cmdId` always passes duplicate suppression
and leaves the cache unchanged; a `cmdId` still in the cache is rejected
(cache unchanged); an uncached `cmdId` is admitted and `cmdId → now` is
recorded. -/
theorem registerCommandId_dedup (now : Int) (W : ℚ) (m : UdpCommandMessage)
    (cache : List (String × Int)) :
    (m.cmdId = "" → registerCommandId now W m cache = (true, cache)) ∧
    (m.cmdId ≠ "" → containsKey cache m.cmdId = true →
      registerCommandId now W m cache = (false, cache)) ∧
    (m.cmdId ≠ "" → containsKey cache m.cmdId = false →
      (registerCommandId now W m cache).1 = true ∧
      (m.cmdId, now) ∈ (registerCommandId now W m cache).2) := by
  refine ⟨?_, ?_, ?_⟩
  · intro h
    unfold registerCommandId
    rw [if_pos h]
  · intro h hc
    unfold registerCommandId
    rw [if_neg h, if_pos hc]
  · intro h hc
    unfold registerCommandId
    rw [if_neg h, if_neg (by simp [hc])]
    by_cases hlen : maxRememberedCommandIds < (cache ++ [(m.cmdId, now)]).length
    · rw [if_pos hlen]
      refine ⟨rfl, ?_⟩
      unfold pruneProcessedCommands
      refine List.mem_filter.mpr ⟨List.mem_append_right _ (List.mem_singleton.mpr rfl), ?_⟩
      have hk : (1 : Int) ≤ Int.floor (max 1 W) :=
        Int.le_floor.mpr (by push_cast; exact le_max_left 1 W)
      simp only [Bool.not_eq_true', decide_eq_false_iff_not, not_lt]
      omega
    · rw [if_neg hlen]
      exact ⟨rfl, List.mem_append_right _ (List.mem_singleton.mpr rfl)⟩

/-- Witness for C5: empty id passes without insertion; a cached id is
rejected; a fresh id is admitted and recorded. -/
theorem registerCommandId_dedup_witness :
    (registerCommandId 1000 5 { cmdId := "", action := "a" } [("x", 999)]
        = (true, [("x", 999)])) ∧
    (registerCommandId 1000 5 { cmdId := "x", action := "a" } [("x", 999)]
        = (false, [("x", 999)])) ∧
    ((registerCommandId 1000 5 { cmdId := "y", action := "a" } [("x", 999)]).1 = true ∧
      ("y", (1000 : Int)) ∈ (registerCommandId 1000 5 { cmdId := "y", action := "a" }
        [("x", 999)]).2) :=
  ⟨(registerCommandId_dedup 1000 5 { cmdId := "", action := "a" } [("x", 999)]).1 rfl,
   (registerCommandId_dedup 1000 5 { cmdId := "x", action := "a" } [("x", 999)]).2.1
     (by decide) rfl,
   (registerCommandId_dedup 1000 5 { cmdId := "y", action := "a" } [("x", 999)]).2.2
     (by decide) rfl⟩

/-! ## C6: dedup cache pruning -/

set_option maxRecDepth 100000 in
/-- C6 counterexample: with staleness enabled at a window of `1/2` second,
an insertion into a full cache raises the count above the bound and so
triggers a prune pass, yet the entry `("0", 999)` — one second old at
prune time, hence older than the window — is still in the cache
afterwards, because the prune cutoff uses `Math.Max(1, window)`, not the
window itself. -/
theorem dedup_prune_cex :
    (0 : ℚ) < 1/2 ∧
    maxRememberedCommandIds <
      ((List.range 128).map (fun i => (toString i, (999 : Int)))).length + 1 ∧
    ("0", (999 : Int)) ∈ (registerCommandId 1000 (1/2) { cmdId := "x", action := "a" }
      ((List.range 128).map (fun i => (toString i, (999 : Int))))).2 ∧
    (1/2 : ℚ) < ((1000 : ℚ) - 999) := by
  refine ⟨by norm_num, by simp [maxRememberedCommandIds], ?_, by norm_num⟩
  have hfloor : Int.floor (max 1 (1/2 : ℚ)) = 1 := by
    rw [max_eq_left (by norm_num)]
    exact Int.floor_one
  unfold registerCommandId
  rw [if_neg (by decide), if_neg (by decide),
    if_pos (by simp [maxRememberedCommandIds])]
  unfold pruneProcessedCommands
  rw [hfloor]
  refine List.mem_filter.mpr ⟨List.mem_append_left _ (by decide), by norm_num⟩

/-- C6 (amended): when an insertion raises the cache above the 128-entry
bound, every entry recorded more than `⌊max(1, W)⌋` seconds ago is pruned
and every younger entry is retained (so the 1-second floor applies
whenever `W < 1`, not only when staleness checking is disabled, and the
retained population — hence the cache size — is limited only by that age
cutoff); below the bound the insertion is kept without pruning. -/
theorem dedup_prune_spec (now : Int) (W : ℚ) (m : UdpCommandMessage)
    (cache : List (String × Int)) (hid : m.cmdId ≠ "")
    (hc : containsKey cache m.cmdId = false) :
    (cache.length + 1 ≤ maxRememberedCommandIds →
      (registerCommandId now W m cache).2 = cache ++ [(m.cmdId, now)]) ∧
    (maxRememberedCommandIds < cache.length + 1 →
      (registerCommandId now W m cache).2 =
        pruneProcessedCommands now W (cache ++ [(m.cmdId, now)]) ∧
      (∀ p ∈ (registerCommandId now W m cache).2,
        now - p.2 ≤ Int.floor (max 1 W)) ∧
      (∀ p ∈ cache ++ [(m.cmdId, now)],
        now - p.2 ≤ Int.floor (max 1 W) →
          p ∈ (registerCommandId now W m cache).2)) := by
  have hlen : (cache ++ [(m.cmdId, now)]).length = cache.length + 1 := by
    simp
  constructor
  · intro h
    unfold registerCommandId
    rw [if_neg hid, if_neg (by simp [hc]), if_neg (by omega)]
  · intro h
    have hreg : (registerCommandId now W m cache).2 =
        pruneProcessedCommands now W (cache ++ [(m.cmdId, now)]) := by
      unfold registerCommandId
      rw [if_neg hid, if_neg (by simp [hc]), if_pos (by omega)]
    refine ⟨hreg, ?_, ?_⟩
    · intro p hp
      rw [hreg] at hp
      unfold pruneProcessedCommands at hp
      have hpred := List.of_mem_filter hp
      simp only [Bool.not_eq_true', decide_eq_false_iff_not, not_lt] at hpred
      omega
    · intro p hp hage
      rw [hreg]
      unfold pruneProcessedCommands
      refine List.mem_filter.mpr ⟨hp, ?_⟩
      simp only [Bool.not_eq_true', decide_eq_false_iff_not, not_lt]
      omega

/-- Witness for C6's amended theorem in the no-prune regime. -/
theorem dedup_prune_spec_witness :
    (({ cmdId := "y", action := "a" } : UdpCommandMessage).cmdId ≠ "") ∧
    (containsKey [("x", (999 : Int))] "y" = false) ∧
    (([("x", (999 : Int))].length + 1 ≤ maxRememberedCommandIds) ∧
      (registerCommandId 1000 5 { cmdId := "y", action := "a" } [("x", 999)]).2
        = [("x", 999)] ++ [("y", 1000)]) :=
  ⟨by decide, by decide,
   by decide,
   (dedup_prune_spec 1000 5 { cmdId := "y", action := "a" } [("x", 999)]
     (by decide) (by decide)).1 (by decide)⟩

/-! ## C7: applying a HostAnnouncement -/

/-- C7 counterexample: an announced address differing from the configured
one only in letter case is a differing resulting address, and it does
replace the configuration, yet the cached endpoint survives and the
registration-sent flag stays set, because the change test uses
`StringComparison.OrdinalIgnoreCase`. -/
theorem host_announcement_case_cex :
    (applyHostAnnouncement (some { hostAddress := "host" }) none
        { hostAddress := "HOST", hostPort := 4949,
          cachedEndpoint := some ("1.2.3.4", 4949), cachedHostAddress := "HOST",
          hasSentRegistration := true }).2.hostAddress = "host" ∧
    "host" ≠ "HOST" ∧
    (applyHostAnnouncement (some { hostAddress := "host" }) none
        { hostAddress := "HOST", hostPort := 4949,
          cachedEndpoint := some ("1.2.3.4", 4949), cachedHostAddress := "HOST",
          hasSentRegistration := true }).2.cachedEndpoint = some ("1.2.3.4", 4949) ∧
    (applyHostAnnouncement (some { hostAddress := "host" }) none
        { hostAddress := "HOST", hostPort := 4949,
          cachedEndpoint := some ("1.2.3.4", 4949), cachedHostAddress := "HOST",
          hasSentRegistration := true }).2.hasSentRegistration = true := by
  refine ⟨by decide, by decide, by decide, by decide⟩

/-- C7 (amended): an applied announcement sets the host address to the
payload's, falling back to the observed sender, and applies nothing when
both are absent; the port comes from the payload when positive, else the
previous port; the cached endpoint is invalidated and the
registration-sent flag cleared exactly when the resolved address differs
from the current one under the ordinal case-insensitive comparer or the
resolved port differs.  Announcing `10.0.0.5:4949` resolves the endpoint
`10.0.0.5:4949` for the subsequent registration. -/
theorem applyHostAnnouncement_spec (p : HostAnnouncementPayload)
    (remote : Option String) (s : ReporterState) :
    (isNullOrWhiteSpace (if !(isNullOrWhiteSpace p.hostAddress) then p.hostAddress
          else remote.getD "") = true →
      applyHostAnnouncement (some p) remote s = (false, s)) ∧
    (isNullOrWhiteSpace (if !(isNullOrWhiteSpace p.hostAddress) then p.hostAddress
          else remote.getD "") = false →
      (applyHostAnnouncement (some p) remote s).1 = true ∧
      (applyHostAnnouncement (some p) remote s).2.hostAddress =
        (if !(isNullOrWhiteSpace p.hostAddress) then p.hostAddress
          else remote.getD "") ∧
      (applyHostAnnouncement (some p) remote s).2.hostPort =
        (if 0 < p.hostPort then p.hostPort else s.hostPort) ∧
      ((!(ordinalIgnoreCaseEq s.hostAddress
            (if !(isNullOrWhiteSpace p.hostAddress) then p.hostAddress
              else remote.getD "")) ||
          ((if 0 < p.hostPort then p.hostPort else s.hostPort) != s.hostPort)) = true →
        (applyHostAnnouncement (some p) remote s).2.cachedEndpoint = none ∧
        (applyHostAnnouncement (some p) remote s).2.hasSentRegistration = false) ∧
      ((!(ordinalIgnoreCaseEq s.hostAddress
            (if !(isNullOrWhiteSpace p.hostAddress) then p.hostAddress
              else remote.getD "")) ||
          ((if 0 < p.hostPort then p.hostPort else s.hostPort) != s.hostPort)) = false →
        (applyHostAnnouncement (some p) remote s).2.cachedEndpoint = s.cachedEndpoint ∧
        (applyHostAnnouncement (some p) remote s).2.hasSentRegistration =
          s.hasSentRegistration)) ∧
    (∀ dns : String → Option String, dns "10.0.0.5" = some "10.0.0.5" →
      (tryResolveEndpoint dns
          ((applyHostAnnouncement
              (some { hostAddress := "10.0.0.5", hostPort := 4949, commandPort := 3939 })
              none { hostAddress := "auto", hostPort := 4949 }).2)).1
        = some ("10.0.0.5", 4949) ∧
      (applyHostAnnouncement
          (some { hostAddress := "10.0.0.5", hostPort := 4949, commandPort := 3939 })
          none { hostAddress := "auto", hostPort := 4949 }).2.hasSentRegistration
        = false) := by
  refine ⟨?_, ?_, ?_⟩
  · intro h
    unfold applyHostAnnouncement
    simp only [Option.map_some', Option.getD_some]
    rw [if_pos h]
  · intro h
    unfold applyHostAnnouncement
    simp only [Option.map_some', Option.getD_some]
    rw [if_neg (by simpa using h)]
    by_cases hch : (!(ordinalIgnoreCaseEq s.hostAddress
        (if !(isNullOrWhiteSpace p.hostAddress) then p.hostAddress
          else remote.getD "")) ||
        ((if 0 < p.hostPort then p.hostPort else s.hostPort) != s.hostPort)) = true
    · rw [if_pos hch]
      refine ⟨rfl, rfl, rfl, fun _ => ⟨rfl, rfl⟩, fun hcontra => ?_⟩
      rw [hch] at hcontra
      cases hcontra
    · rw [if_neg hch]
      refine ⟨rfl, rfl, rfl, fun hcontra => ?_, fun _ => ⟨rfl, rfl⟩⟩
      exact absurd hcontra hch
  · intro dns hdns
    have happ : (applyHostAnnouncement
        (some { hostAddress := "10.0.0.5", hostPort := 4949, commandPort := 3939 })
        none { hostAddress := "auto", hostPort := 4949 }).2 =
        { hostAddress := "10.0.0.5", hostPort := 4949, discoveryPort := 4949,
          cachedEndpoint := none, cachedHostAddress := "",
          hasSentRegistration := false, hasLoggedMissingHost := false } := by
      decide
    rw [happ]
    unfold tryResolveEndpoint
    rw [if_neg (by decide)]
    rw [if_neg (by decide)]
    rw [hdns]
    exact ⟨rfl, rfl⟩

/-- Witness for C7's amended theorem: a genuinely new address invalidates
the cached endpoint and clears the registration flag. -/
theorem applyHostAnnouncement_spec_witness :
    (isNullOrWhiteSpace (if !(isNullOrWhiteSpace
          ({ hostAddress := "10.0.0.7" } : HostAnnouncementPayload).hostAddress)
        then ({ hostAddress := "10.0.0.7" } : HostAnnouncementPayload).hostAddress
        else (none : Option String).getD "") = false) ∧
    ((applyHostAnnouncement (some { hostAddress := "10.0.0.7" }) none
        { hostAddress := "10.0.0.1", hostPort := 4949,
          cachedEndpoint := some ("10.0.0.1", 4949), cachedHostAddress := "10.0.0.1",
          hasSentRegistration := true }).1 = true ∧
      (applyHostAnnouncement (some { hostAddress := "10.0.0.7" }) none
        { hostAddress := "10.0.0.1", hostPort := 4949,
          cachedEndpoint := some ("10.0.0.1", 4949), cachedHostAddress := "10.0.0.1",
          hasSentRegistration := true }).2.cachedEndpoint = none ∧
      (applyHostAnnouncement (some { hostAddress := "10.0.0.7" }) none
        { hostAddress := "10.0.0.1", hostPort := 4949,
          cachedEndpoint := some ("10.0.0.1", 4949), cachedHostAddress := "10.0.0.1",
          hasSentRegistration := true }).2.hasSentRegistration = false) := by
  have hmain := (applyHostAnnouncement_spec { hostAddress := "10.0.0.7" } none
    { hostAddress := "10.0.0.1", hostPort := 4949,
      cachedEndpoint := some ("10.0.0.1", 4949), cachedHostAddress := "10.0.0.1",
      hasSentRegistration := true }).2.1 (by decide)
  exact ⟨by decide, hmain.1, (hmain.2.2.2.1 (by decide)).1, (hmain.2.2.2.1 (by decide)).2⟩

/-! ## C9: liveness derivation -/

/-- C9: a roster entry is reported online exactly when `now - lastSeen`
is at most the 10,000 ms liveness timeout, recomputed from `now` at each
read; any read strictly later than `lastSeen + timeout` reports offline. -/
theorem liveness_spec (now lastSeen : Int) :
    (isOffline now lastSeen = false ↔ now - lastSeen ≤ heartbeatTimeoutMs) ∧
    heartbeatTimeoutMs = 10000 ∧
    (∀ t : Int, lastSeen + heartbeatTimeoutMs < t → isOffline t lastSeen = true) := by
  refine ⟨?_, rfl, ?_⟩
  · unfold isOffline
    simp [not_lt]
  · intro t ht
    unfold isOffline
    simp only [decide_eq_true_eq]
    omega

/-- Witness for C9 just past the timeout boundary. -/
theorem liveness_spec_witness :
    ((0 : Int) + heartbeatTimeoutMs < 10001) ∧ isOffline 10001 0 = true :=
  ⟨by norm_num [heartbeatTimeoutMs],
   (liveness_spec 10001 0).2.2 10001 (by norm_num [heartbeatTimeoutMs])⟩

/-! ## C10: rejected datagrams leave the dedup cache untouched -/

/-- C10: one `ListenLoop` iteration leaves the dedup cache unchanged when
the datagram is dropped as malformed, unauthorized, or stale (and also
when it is a duplicate); a command id can be recorded only after all three
checks pass. -/
theorem pipeline_cache_isolation (S : String) (W : ℚ) (nowMs : Int)
    (raw : Option UdpCommandMessage) (cache : List (String × Int)) :
    (parseMessage raw = none → processDatagram S W nowMs raw cache = (cache, none)) ∧
    (∀ cmd, parseMessage raw = some cmd → isAuthorized S cmd = false →
      processDatagram S W nowMs raw cache = (cache, none)) ∧
    (∀ cmd, parseMessage raw = some cmd → isAuthorized S cmd = true →
      isStale W nowMs cmd = true →
      processDatagram S W nowMs raw cache = (cache, none)) ∧
    (∀ cmd, parseMessage raw = some cmd → isAuthorized S cmd = true →
      isStale W nowMs cmd = false → cmd.cmdId ≠ "" →
      containsKey cache cmd.cmdId = true →
      processDatagram S W nowMs raw cache = (cache, none)) := by
  refine ⟨?_, ?_, ?_, ?_⟩
  · intro h
    unfold processDatagram
    rw [h]
  · intro cmd hp hauth
    unfold processDatagram
    rw [hp]
    simp [hauth]
  · intro cmd hp hauth hstale
    unfold processDatagram
    rw [hp]
    simp [hauth, hstale]
  · intro cmd hp hauth hstale hid hdup
    unfold processDatagram
    rw [hp]
    simp [registerCommandId, hauth, hstale, hid, hdup]

/-! ## Lemmas about the roster merge -/

theorem find_replace (k : String) (v : ClientEntry) :
    ∀ (clients : List (String × ClientEntry)),
      clients.any (fun e => e.1 == k) = true →
      ((clients.map (fun e => if e.1 == k then (k, v) else e)).find?
        (fun e => e.1 == k)) = some (k, v) := by
  intro clients
  induction clients with
  | nil => intro h; simp at h
  | cons e es ih =>
    intro h
    by_cases he : (e.1 == k) = true
    · rw [List.map_cons, if_pos he, List.find?_cons_of_pos _ (by simp)]
    · have hes : es.any (fun e => e.1 == k) = true := by
        simp only [List.any_cons, he, Bool.false_or] at h
        exact h
      rw [List.map_cons, if_neg he, List.find?_cons_of_neg _ (by simp [he])]
      exact ih hes

theorem find_append_new (k : String) (v : ClientEntry) :
    ∀ (clients : List (String × ClientEntry)),
      clients.any (fun e => e.1 == k) = false →
      ((clients ++ [(k, v)]).find? (fun e => e.1 == k)) = some (k, v) := by
  intro clients
  induction clients with
  | nil => simp
  | cons e es ih =>
    intro h
    simp only [List.any_cons, Bool.or_eq_false_iff] at h
    rw [List.cons_append, List.find?_cons_of_neg _ (by simp [h.1])]
    exact ih h.2

theorem lookupClient_setClient (clients : List (String × ClientEntry)) (k : String)
    (v : ClientEntry) : lookupClient (setClient clients k v) k = some v := by
  unfold setClient lookupClient
  by_cases h : clients.any (fun e => e.1 == k) = true
  · rw [if_pos h, find_replace k v clients h]
    rfl
  · rw [if_neg h, find_append_new k v clients (Bool.eq_false_iff.mpr h)]
    rfl

theorem mergeEntry_deviceId (port : Option Int) (now : Int) (packet : String × Int)
    (payload : HeartbeatPayload) (c : ClientEntry) :
    (mergeEntry port now packet payload c).deviceId = payload.deviceId.getD c.deviceId := by
  unfold mergeEntry
  dsimp only
  split <;> rfl

theorem mergeEntry_deviceName (port : Option Int) (now : Int) (packet : String × Int)
    (payload : HeartbeatPayload) (c : ClientEntry) :
    (mergeEntry port now packet payload c).deviceName =
      if payload.deviceName.getD c.deviceName = "" then payload.deviceId.getD c.deviceId
      else payload.deviceName.getD c.deviceName := by
  unfold mergeEntry
  dsimp only
  split <;> rfl

theorem mergeEntry_platform (port : Option Int) (now : Int) (packet : String × Int)
    (payload : HeartbeatPayload) (c : ClientEntry) :
    (mergeEntry port now packet payload c).platform = payload.platform.getD c.platform := by
  unfold mergeEntry
  dsimp only
  split <;> rfl

theorem mergeEntry_buildVersion (port : Option Int) (now : Int) (packet : String × Int)
    (payload : HeartbeatPayload) (c : ClientEntry) :
    (mergeEntry port now packet payload c).buildVersion =
      payload.buildVersion.getD c.buildVersion := by
  unfold mergeEntry
  dsimp only
  split <;> rfl

theorem mergeEntry_ipv4 (port : Option Int) (now : Int) (packet : String × Int)
    (payload : HeartbeatPayload) (c : ClientEntry) :
    (mergeEntry port now packet payload c).ipv4 =
      if payload.ipv4.getD c.ipv4 = "" then packet.1 else payload.ipv4.getD c.ipv4 := by
  unfold mergeEntry
  dsimp only
  split <;> rfl

theorem mergeEntry_scene (port : Option Int) (now : Int) (packet : String × Int)
    (payload : HeartbeatPayload) (c : ClientEntry) :
    (mergeEntry port now packet payload c).scene =
      if payload.scene.getD c.scene = "" then c.scene else payload.scene.getD c.scene := by
  unfold mergeEntry
  dsimp only
  split <;> rfl

theorem mergeEntry_commandPort (port : Option Int) (now : Int) (packet : String × Int)
    (payload : HeartbeatPayload) (c : ClientEntry) :
    (mergeEntry port now packet payload c).commandPort =
      (match payload.commandPort with
       | some v => if v ≠ 0 then some v else some (commandPortFallback port)
       | none =>
         (match c.commandPort with
          | some v => if v ≠ 0 then some v else some (commandPortFallback port)
          | none => some (commandPortFallback port))) := by
  unfold mergeEntry
  dsimp only
  split <;>
    · cases hp : payload.commandPort with
      | some v => rfl
      | none => cases hc : c.commandPort <;> rfl

theorem mergeEntry_remoteAddress (port : Option Int) (now : Int) (packet : String × Int)
    (payload : HeartbeatPayload) (c : ClientEntry) :
    (mergeEntry port now packet payload c).remoteAddress = packet.1 := by
  unfold mergeEntry
  dsimp only
  split <;> rfl

theorem mergeEntry_remotePort (port : Option Int) (now : Int) (packet : String × Int)
    (payload : HeartbeatPayload) (c : ClientEntry) :
    (mergeEntry port now packet payload c).remotePort = packet.2 := by
  unfold mergeEntry
  dsimp only
  split <;> rfl

theorem mergeEntry_firstSeen (port : Option Int) (now : Int) (packet : String × Int)
    (payload : HeartbeatPayload) (c : ClientEntry) :
    (mergeEntry port now packet payload c).firstSeen = c.firstSeen := by
  unfold mergeEntry
  dsimp only
  split <;> rfl

theorem mergeEntry_lastSeen (port : Option Int) (now : Int) (packet : String × Int)
    (payload : HeartbeatPayload) (c : ClientEntry) :
    (mergeEntry port now packet payload c).lastSeen = now := by
  unfold mergeEntry
  dsimp only
  split <;> rfl

theorem commandPortFallback_ne_zero (port : Option Int) : commandPortFallback port ≠ 0 := by
  unfold commandPortFallback
  cases port with
  | none => decide
  | some p =>
    dsimp only
    by_cases hp : p ≠ 0
    · rw [if_pos hp]; exact hp
    · rw [if_neg hp]; decide

theorem mergeEntry_commandPort_ne_zero (port : Option Int) (now : Int)
    (packet : String × Int) (payload : HeartbeatPayload) (c : ClientEntry) :
    ∃ w, (mergeEntry port now packet payload c).commandPort = some w ∧ w ≠ 0 := by
  rw [mergeEntry_commandPort]
  cases hp : payload.commandPort with
  | some v =>
    by_cases hv : v ≠ 0
    · exact ⟨v, by dsimp only; rw [if_pos hv], hv⟩
    · exact ⟨commandPortFallback port, by dsimp only; rw [if_neg hv],
        commandPortFallback_ne_zero port⟩
  | none =>
    cases hc : c.commandPort with
    | some v =>
      by_cases hv : v ≠ 0
      · exact ⟨v, by dsimp only; rw [if_pos hv], hv⟩
      · exact ⟨commandPortFallback port, by dsimp only; rw [if_neg hv],
          commandPortFallback_ne_zero port⟩
    | none => exact ⟨commandPortFallback port, rfl, commandPortFallback_ne_zero port⟩

theorem mergeEntry_idem (port : Option Int) (now1 now2 : Int) (packet : String × Int)
    (payload : HeartbeatPayload) (c : ClientEntry) :
    mergeEntry port now2 packet payload (mergeEntry port now1 packet payload c) =
      { mergeEntry port now1 packet payload c with lastSeen := now2 } := by
  refine ClientEntry.ext ?_ ?_ ?_ ?_ ?_ ?_ ?_ ?_ ?_ ?_ ?_ <;> dsimp only
  · rw [mergeEntry_deviceId]
    cases hdi : payload.deviceId with
    | some v => rw [Option.getD_some, mergeEntry_deviceId, hdi, Option.getD_some]
    | none => rw [Option.getD_none]
  · rw [mergeEntry_deviceName]
    cases hdn : payload.deviceName with
    | some dn =>
      rw [Option.getD_some]
      by_cases hdn0 : dn = ""
      · rw [if_pos hdn0, mergeEntry_deviceName, hdn, Option.getD_some, if_pos hdn0]
        cases hdi : payload.deviceId with
        | some v => rw [Option.getD_some, Option.getD_some]
        | none =>
          rw [Option.getD_none, Option.getD_none, mergeEntry_deviceId, hdi, Option.getD_none]
      · rw [if_neg hdn0, mergeEntry_deviceName, hdn, Option.getD_some, if_neg hdn0]
    | none =>
      rw [Option.getD_none]
      by_cases hcn : (mergeEntry port now1 packet payload c).deviceName = ""
      · rw [if_pos hcn, hcn]
        rw [mergeEntry_deviceName, hdn, Option.getD_none] at hcn
        cases hdi : payload.deviceId with
        | some v =>
          rw [Option.getD_some]
          rw [hdi, Option.getD_some] at hcn
          by_cases hc0 : c.deviceName = ""
          · rw [if_pos hc0] at hcn
            exact hcn
          · rw [if_neg hc0] at hcn
            exact absurd hcn hc0
        | none =>
          rw [Option.getD_none, mergeEntry_deviceId, hdi, Option.getD_none]
          rw [hdi, Option.getD_none] at hcn
          by_cases hc0 : c.deviceName = ""
          · rw [if_pos hc0] at hcn
            exact hcn
          · rw [if_neg hc0] at hcn
            exact absurd hcn hc0
      · rw [if_neg hcn]
  · rw [mergeEntry_platform]
    cases hp : payload.platform with
    | some v => rw [Option.getD_some, mergeEntry_platform, hp, Option.getD_some]
    | none => rw [Option.getD_none]
  · rw [mergeEntry_buildVersion]
    cases hp : payload.buildVersion with
    | some v => rw [Option.getD_some, mergeEntry_buildVersion, hp, Option.getD_some]
    | none => rw [Option.getD_none]
  · rw [mergeEntry_ipv4]
    cases hp : payload.ipv4 with
    | some v => rw [Option.getD_some, mergeEntry_ipv4, hp, Option.getD_some]
    | none =>
      rw [Option.getD_none]
      by_cases h0 : (mergeEntry port now1 packet payload c).ipv4 = ""
      · rw [if_pos h0]
        rw [mergeEntry_ipv4, hp, Option.getD_none] at h0
        rw [mergeEntry_ipv4, hp, Option.getD_none]
        by_cases hc0 : c.ipv4 = ""
        · rw [if_pos hc0]
        · rw [if_neg hc0] at h0
          exact absurd h0 hc0
      · rw [if_neg h0]
  · rw [mergeEntry_scene]
    cases hp : payload.scene with
    | some v =>
      rw [Option.getD_some]
      by_cases hv : v = ""
      · rw [if_pos hv]
      · rw [if_neg hv, mergeEntry_scene, hp, Option.getD_some, if_neg hv]
    | none => rw [Option.getD_none, ite_self]
  · cases hp : payload.commandPort with
    | some v =>
      rw [mergeEntry_commandPort, hp]
      dsimp only
      by_cases hv : v ≠ 0
      · rw [if_pos hv, mergeEntry_commandPort, hp]
        dsimp only
        rw [if_pos hv]
      · rw [if_neg hv, mergeEntry_commandPort, hp]
        dsimp only
        rw [if_neg hv]
    | none =>
      rcases mergeEntry_commandPort_ne_zero port now1 packet payload c with ⟨w, hw, hwne⟩
      rw [mergeEntry_commandPort, hp]
      dsimp only
      rw [hw]
      dsimp only
      rw [if_pos hwne]
  · rw [mergeEntry_remoteAddress, mergeEntry_remoteAddress]
  · rw [mergeEntry_remotePort, mergeEntry_remotePort]
  · rw [mergeEntry_firstSeen]
  · rw [mergeEntry_lastSeen]


/-! ## C8: roster merge idempotence and field masking -/

/-- C8: applying the same registration/heartbeat record twice in
succession (with a resolvable roster key and an advancing clock) leaves
every visible field of the entry unchanged except `lastSeen`, which
strictly advances; and in every single application, fields absent from the
incoming record never overwrite present fields of the existing entry,
while `lastSeen` and the observed transport address/port are always
refreshed. -/
theorem roster_merge_idempotent (port : Option Int) (now1 now2 : Int)
    (packet : String × Int) (payload : HeartbeatPayload)
    (clients : List (String × ClientEntry))
    (hk : jsOrStr payload.deviceId packet.1 ≠ "") (ht : now1 < now2) :
    (∃ e1,
      lookupClient (upsertClient port now1 packet payload clients)
          (jsOrStr payload.deviceId packet.1) = some e1 ∧
      lookupClient (upsertClient port now2 packet payload
            (upsertClient port now1 packet payload clients))
          (jsOrStr payload.deviceId packet.1) = some { e1 with lastSeen := now2 } ∧
      e1.lastSeen = now1 ∧ e1.lastSeen < now2 ∧
      e1.remoteAddress = packet.1 ∧ e1.remotePort = packet.2) ∧
    (∀ e, lookupClient clients (jsOrStr payload.deviceId packet.1) = some e →
      ∃ e2, lookupClient (upsertClient port now1 packet payload clients)
          (jsOrStr payload.deviceId packet.1) = some e2 ∧
        e2.lastSeen = now1 ∧ e2.remoteAddress = packet.1 ∧ e2.remotePort = packet.2 ∧
        e2.firstSeen = e.firstSeen ∧
        (payload.deviceId = none → e2.deviceId = e.deviceId) ∧
        (payload.deviceName = none → e.deviceName ≠ "" → e2.deviceName = e.deviceName) ∧
        (payload.platform = none → e2.platform = e.platform) ∧
        (payload.buildVersion = none → e2.buildVersion = e.buildVersion) ∧
        (payload.ipv4 = none → e.ipv4 ≠ "" → e2.ipv4 = e.ipv4) ∧
        (payload.scene = none → e2.scene = e.scene) ∧
        (payload.commandPort = none → ∀ v, e.commandPort = some v → v ≠ 0 →
          e2.commandPort = some v)) := by
  have hdef : ∀ (cl : List (String × ClientEntry)) (now : Int),
      upsertClient port now packet payload cl =
        setClient cl (jsOrStr payload.deviceId packet.1)
          (mergeEntry port now packet payload
            ((lookupClient cl (jsOrStr payload.deviceId packet.1)).getD
              (newClientEntry now packet payload (jsOrStr payload.deviceId packet.1)))) := by
    intro cl now
    simp only [upsertClient]
    rw [if_neg hk]
  constructor
  · refine ⟨mergeEntry port now1 packet payload
      ((lookupClient clients (jsOrStr payload.deviceId packet.1)).getD
        (newClientEntry now1 packet payload (jsOrStr payload.deviceId packet.1))),
      ?_, ?_, mergeEntry_lastSeen _ _ _ _ _, ?_,
      mergeEntry_remoteAddress _ _ _ _ _, mergeEntry_remotePort _ _ _ _ _⟩
    · rw [hdef clients now1]
      exact lookupClient_setClient _ _ _
    · rw [hdef clients now1, hdef _ now2,
        lookupClient_setClient clients (jsOrStr payload.deviceId packet.1) _,
        Option.getD_some, mergeEntry_idem]
      exact lookupClient_setClient _ _ _
    · rw [mergeEntry_lastSeen]
      exact ht
  · intro e he
    refine ⟨mergeEntry port now1 packet payload e, ?_,
      mergeEntry_lastSeen _ _ _ _ _, mergeEntry_remoteAddress _ _ _ _ _,
      mergeEntry_remotePort _ _ _ _ _, mergeEntry_firstSeen _ _ _ _ _,
      ?_, ?_, ?_, ?_, ?_, ?_, ?_⟩
    · rw [hdef clients now1, he, Option.getD_some]
      exact lookupClient_setClient _ _ _
    · intro h
      rw [mergeEntry_deviceId, h, Option.getD_none]
    · intro h hne
      rw [mergeEntry_deviceName, h, Option.getD_none, if_neg hne]
    · intro h
      rw [mergeEntry_platform, h, Option.getD_none]
    · intro h
      rw [mergeEntry_buildVersion, h, Option.getD_none]
    · intro h hne
      rw [mergeEntry_ipv4, h, Option.getD_none, if_neg hne]
    · intro h
      rw [mergeEntry_scene, h, Option.getD_none, ite_self]
    · intro h v hv hvne
      rw [mergeEntry_commandPort, h]
      dsimp only
      rw [hv]
      dsimp only
      rw [if_pos hvne]

/-- A concrete heartbeat payload used by the C8 witness. -/
def samplePayload : HeartbeatPayload :=
  { deviceId := some "dev1", scene := some "Menu" }

/-- A concrete UDP sender (address, port) used by the C8 witness. -/
def samplePacket : String × Int := ("10.0.0.9", 5000)

/-- Witness for C8 at a concrete payload, sender, and pair of clock
readings. -/
theorem roster_merge_idempotent_witness :
    (jsOrStr samplePayload.deviceId samplePacket.1 ≠ "") ∧ ((100 : Int) < 200) ∧
    ((∃ e1,
      lookupClient (upsertClient (some 4040) 100 samplePacket samplePayload [])
          (jsOrStr samplePayload.deviceId samplePacket.1) = some e1 ∧
      lookupClient (upsertClient (some 4040) 200 samplePacket samplePayload
            (upsertClient (some 4040) 100 samplePacket samplePayload []))
          (jsOrStr samplePayload.deviceId samplePacket.1) =
            some { e1 with lastSeen := 200 } ∧
      e1.lastSeen = 100 ∧ e1.lastSeen < 200 ∧
      e1.remoteAddress = samplePacket.1 ∧ e1.remotePort = samplePacket.2) ∧
    (∀ e, lookupClient [] (jsOrStr samplePayload.deviceId samplePacket.1) = some e →
      ∃ e2, lookupClient (upsertClient (some 4040) 100 samplePacket samplePayload [])
          (jsOrStr samplePayload.deviceId samplePacket.1) = some e2 ∧
        e2.lastSeen = 100 ∧ e2.remoteAddress = samplePacket.1 ∧
        e2.remotePort = samplePacket.2 ∧
        e2.firstSeen = e.firstSeen ∧
        (samplePayload.deviceId = none → e2.deviceId = e.deviceId) ∧
        (samplePayload.deviceName = none → e.deviceName ≠ "" →
          e2.deviceName = e.deviceName) ∧
        (samplePayload.platform = none → e2.platform = e.platform) ∧
        (samplePayload.buildVersion = none → e2.buildVersion = e.buildVersion) ∧
        (samplePayload.ipv4 = none → e.ipv4 ≠ "" → e2.ipv4 = e.ipv4) ∧
        (samplePayload.scene = none → e2.scene = e.scene) ∧
        (samplePayload.commandPort = none → ∀ v, e.commandPort = some v → v ≠ 0 →
          e2.commandPort = some v))) :=
  ⟨by decide, by decide,
   roster_merge_idempotent (some 4040) 100 200 samplePacket samplePayload []
     (by decide) (by decide)⟩

/-- Witness for C10: an unauthorized (unsigned) envelope under a
configured secret leaves a concrete dedup cache unchanged. -/
theorem pipeline_cache_isolation_witness :
    (parseMessage (some { action := "Go" }) = some { action := "Go" }) ∧
    (isAuthorized "k" { action := "Go" } = false) ∧
    processDatagram "k" 5 1700000000000 (some { action := "Go" }) [("x", 999)]
      = ([("x", 999)], none) :=
  ⟨by decide, by decide,
   (pipeline_cache_isolation "k" 5 1700000000000 (some { action := "Go" })
     [("x", 999)]).2.1 { action := "Go" } (by decide) (by decide)⟩

end UdpSuite
